import Mathlib

/-
Verification development for the LyProX dashboard query-and-aggregation
engine (`dashboard/query.py`).  The definitions below are a shallow
embedding of that module: Django querysets become Lists (with
multiplicity, since the SQL joins created by filters on multi-valued
relations can duplicate rows), the ternary involvement values
True/False/None become `Option Bool`, numpy one-hot arrays of length 3
become triples of naturals, Python dictionaries keyed by patient id
become association lists, and Python exceptions (ValueError, KeyError,
IndexError, NameError, AttributeError) become `Except String`.
-/

/-- Embedding of the `Tumor` model fields used by `dashboard/query.py`:
subsite code, T-stage, centrality and midline-extension flags. -/
structure TumorRec where
  subsite : String
  t_stage : Nat
  central : Option Bool
  extension : Option Bool
deriving DecidableEq, Repr

/-- Embedding of the `Patient` model fields used by `dashboard/query.py`,
together with the related tumors (`tumor_set`, in database order, so that
`tumor_set.first()` is the head of the list). -/
structure PatientRec where
  id : Nat
  institution : Nat
  nicotine_abuse : Option Bool
  hpv_status : Option Bool
  neck_dissection : Option Bool
  tumors : List TumorRec
deriving DecidableEq, Repr

/-- Embedding of one row of the `Diagnose` table as fetched by
`diagnose_specific` via `.values()`: the owning patient id, the modality,
the side (the string "ipsi" or "contra") and the twelve per-LNL ternary
involvement values in the order of `Diagnose.LNLs`. -/
structure DiagnoseRow where
  patient_id : Nat
  modality : String
  side : String
  lnls : List (Option Bool)
deriving DecidableEq, Repr

/-- The lymph node levels, copied from `Diagnose.LNLs` in
`patients/models.py`. -/
def LNLs : List String :=
  ["I", "Ia", "Ib", "II", "IIa", "IIb", "III", "IV", "V", "Va", "Vb", "VII"]

/-- The possible T-stages, copied from `Patient.T_stages` in
`patients/models.py` (values of the `IntegerChoices` T1..T4). -/
def T_stages : List Nat := [1, 2, 3, 4]

/-- The subsite grouping, copied from `Tumor.SUBSITE_DICT` in
`patients/models.py` (ordered group name with its ICD-10 codes). -/
def SUBSITE_DICT : List (String × List String) :=
  [ ("base", ["C01", "C01.9"]),
    ("tonsil", ["C09.0", "C09.1", "C09.8", "C09.9"]),
    ("rest_oro", ["C10.0", "C10.1", "C10.2", "C10.3", "C10.4", "C10.8", "C10.9"]),
    ("rest_hypo", ["C12", "C12.9", "C13.0", "C13.1", "C13.2", "C13.8", "C13.9"]),
    ("glottis", ["C32.0"]),
    ("rest_larynx", ["C32.1", "C32.2", "C32.3", "C32.8", "C32.9"]),
    ("tongue", ["C02.0", "C02.1", "C02.2", "C02.3", "C02.4", "C02.8", "C02.9"]),
    ("gum_cheek", ["C03.0", "C03.1", "C03.9", "C06.0", "C06.1", "C06.2", "C06.8", "C06.9"]),
    ("mouth_floor", ["C04.0", "C04.1", "C04.8", "C04.9"]),
    ("palate", ["C05.0", "C05.1", "C05.2", "C05.8", "C05.9"]),
    ("glands", ["C08.0", "C08.1", "C08.9"]) ]

/-- One-hot array of length 3 as used by `tf2arr` and the counting code
(numpy `int` arrays of shape (3,)). -/
abbrev Arr3 := Nat × Nat × Nat

/-- Embedding of `tf2arr` (query.py lines 14-26): map True, False and
None to one-hot arrays of length 3, with index 0 for None, index 1 for
True and index 2 for False. -/
def tf2arr (value : Option Bool) : Arr3 :=
  match value with
  | none => (1, 0, 0)
  | some v => if v then (0, 1, 0) else (0, 0, 1)

/-- Componentwise addition of length-3 count arrays. -/
def addArr3 (a b : Arr3) : Arr3 :=
  (a.1 + b.1, a.2.1 + b.2.1, a.2.2 + b.2.2)

/-- Sum of the three buckets of a one-hot count array. -/
def sum3 (a : Arr3) : Nat := a.1 + a.2.1 + a.2.2

/-- Embedding of `subsite2arr` (query.py lines 29-43): one-hot vector over
the subsite groups, a 1 at every group whose code list contains the
subsite. -/
def subsite2arr (subsite : String) : List Nat :=
  SUBSITE_DICT.map (fun grp => if grp.2.contains subsite then 1 else 0)

/-- Componentwise addition of integer count vectors (numpy `+=` on
equal-shape arrays). -/
def addVec (a b : List Nat) : List Nat := List.zipWith (· + ·) a b

/-- Embedding of `patient_specific` (query.py lines 46-69): apply an
equality filter to the queryset for every keyword argument that is not
None, in the keyword order nicotine_abuse, hpv_status, neck_dissection,
institution__in (the `__in` lookup being list membership). -/
def patient_specific (patient_queryset : List PatientRec)
    (nicotine_abuse hpv_status neck_dissection : Option Bool)
    (institution__in : Option (List Nat)) : List PatientRec :=
  let qs := match nicotine_abuse with
    | none => patient_queryset
    | some v => patient_queryset.filter (fun p => p.nicotine_abuse == some v)
  let qs := match hpv_status with
    | none => qs
    | some v => qs.filter (fun p => p.hpv_status == some v)
  let qs := match neck_dissection with
    | none => qs
    | some v => qs.filter (fun p => p.neck_dissection == some v)
  match institution__in with
  | none => qs
  | some insts => qs.filter (fun p => insts.contains p.institution)

/-- One Django filter step on the multi-valued `tumor__` relation: the SQL
join keeps one copy of the patient row for every related tumor satisfying
the condition (no `.distinct()` is applied in `tumor_specific`). -/
def tumorFilter (cond : TumorRec → Bool) : List PatientRec → List PatientRec
  | [] => []
  | p :: rest => (p.tumors.filter cond).map (fun _ => p) ++ tumorFilter cond rest

/-- Embedding of `tumor_specific` (query.py lines 72-93): apply a
`tumor__`-relation filter for every keyword argument that is not None, in
the keyword order subsite__in, t_stage__in, central, extension.  The two
`__in` criteria have non-None defaults in the source and are therefore
always applied; each `filter` call joins the tumor table again. -/
def tumor_specific (patient_queryset : List PatientRec)
    (subsite__in : List String) (t_stage__in : List Nat)
    (central extension : Option Bool) : List PatientRec :=
  let qs := tumorFilter (fun t => subsite__in.contains t.subsite) patient_queryset
  let qs := tumorFilter (fun t => t_stage__in.contains t.t_stage) qs
  let qs := match central with
    | none => qs
    | some v => tumorFilter (fun t => t.central == some v) qs
  match extension with
  | none => qs
  | some v => tumorFilter (fun t => t.extension == some v) qs

/-- Python truthiness of a ternary value: None and False are falsy, True
is truthy.  This is how `any` and `np.any` see the entries. -/
def truthy : Option Bool → Bool
  | none => false
  | some b => b

/-- Embedding of the `OR` combination function (query.py line 154):
`combine = any`, i.e. true iff some entry of the column is truthy. -/
def orCombine (col : List (Option Bool)) : Bool :=
  col.any truthy

/-- Embedding of the `AND` combination function (query.py lines 157-159):
`not(any([not(e) if e is not None else None for e in col]))`. -/
def andCombine (col : List (Option Bool)) : Bool :=
  !((col.map (Option.map (fun b => !b))).any truthy)

/-- Consensus of one LNL column of the stacked diagnosis table (query.py
lines 165-177): the combination function applied to the column, except
that a column whose observations are all None reports None. -/
def columnConsensus (combine : List (Option Bool) → Bool) (col : List (Option Bool)) :
    Option Bool :=
  if col.all (fun e => e == none) then none
  else some (combine col)

/-- Message of the ValueError raised for an unrecognized combination
policy (query.py line 161). -/
def combineErrMsg : String := "Can only combine modalities using OR or AND (logical)"

/-- Per-patient consensus computation (query.py lines 152-177): dispatch
on the combination policy (raising ValueError for anything other than
"OR" or "AND"), then reduce every column of the stacked diagnosis table
to its consensus value. -/
def processPatient (modality_combine : String) (diag_table : List (List (Option Bool))) :
    Except String (List (Option Bool)) :=
  if modality_combine == "OR" then
    .ok (diag_table.transpose.map (columnConsensus orCombine))
  else if modality_combine == "AND" then
    .ok (diag_table.transpose.map (columnConsensus andCombine))
  else
    .error combineErrMsg

/-- Embedding of the pattern match (query.py lines 179-183):
`np.all(np.equal(combined, selected, where=mask, out=ones))` with
`mask = selected != None`.  Positions where the target is None contribute
the `out` value True; positions with a definite target compare with
Python equality, under which None never equals True or False. -/
def patientMatches (selected combined : List (Option Bool)) : Bool :=
  (combined.zip selected).all fun pr =>
    match pr.2 with
    | none => true
    | some b => pr.1 == some b

/-- Embedding of `patient_queryset.exclude(id=patient_id)` (query.py
line 185). -/
def excludePatient (patient_queryset : List PatientRec) (patient_id : Nat) : List PatientRec :=
  patient_queryset.filter (fun p => !(p.id == patient_id))

/-- One step of building the per-side diagnosis tables (query.py lines
138-150): append the new row to the table of its patient (`np.vstack`),
or start a fresh table for a patient seen for the first time. -/
def addRow (tables : List (Nat × List (List (Option Bool)))) (pid : Nat)
    (row : List (Option Bool)) : List (Nat × List (List (Option Bool))) :=
  if tables.any (fun e => e.1 == pid) then
    tables.map (fun e => if e.1 == pid then (e.1, e.2 ++ [row]) else e)
  else
    tables ++ [(pid, [row])]

/-- Build the per-patient stacked diagnosis tables of one side from the
diagnosis rows of that side, in row order. -/
def buildTables (rows : List DiagnoseRow) : List (Nat × List (List (Option Bool))) :=
  rows.foldl (fun t r => addRow t r.patient_id r.lnls) []

/-- The per-side loop over patients (query.py lines 152-185): compute each
consensus vector, record it, and exclude the patient from the queryset
when the consensus does not match the selected target pattern. -/
def processSidePatients (modality_combine : String) (selected : List (Option Bool)) :
    List (Nat × List (List (Option Bool))) → List PatientRec →
    Except String (List PatientRec × List (Nat × List (Option Bool)))
  | [], qs => .ok (qs, [])
  | (pid, tbl) :: rest, qs =>
    match processPatient modality_combine tbl with
    | .error e => .error e
    | .ok cv =>
      let qs1 := if patientMatches selected cv then qs else excludePatient qs pid
      match processSidePatients modality_combine selected rest qs1 with
      | .error e => .error e
      | .ok (qsF, invRest) => .ok (qsF, (pid, cv) :: invRest)

/-- The `combined_involvement` dictionary: one association list from
patient id to consensus vector per side. -/
structure CombinedInvolvement where
  ipsi : List (Nat × List (Option Bool))
  contra : List (Nat × List (Option Bool))
deriving DecidableEq, Repr

/-- The diagnosis rows fetched in query.py lines 105-106: all rows whose
patient is in the queryset and whose modality is among the selected
modalities. -/
def qualifyingRows (patient_queryset : List PatientRec) (diagnoses : List DiagnoseRow)
    (modalities : List String) : List DiagnoseRow :=
  diagnoses.filter (fun r =>
    patient_queryset.any (fun p => p.id == r.patient_id) && modalities.contains r.modality)

/-- Embedding of `diagnose_specific` (query.py lines 96-189): fetch the
qualifying diagnosis rows, partition them into ipsi (side == "ipsi") and
contra (everything else), keep only patients having at least one row on
some side (with `.distinct()`), then run the per-side consensus and
pattern-match loop for ipsi followed by contra. -/
def diagnose_specific (patient_queryset : List PatientRec) (diagnoses : List DiagnoseRow)
    (modalities : List String) (modality_combine : String)
    (selIpsi selContra : List (Option Bool)) :
    Except String (List PatientRec × CombinedInvolvement) :=
  let d := qualifyingRows patient_queryset diagnoses modalities
  let d_ipsi := d.filter (fun r => r.side == "ipsi")
  let d_contra := d.filter (fun r => !(r.side == "ipsi"))
  let qs := (patient_queryset.filter (fun p =>
      d_ipsi.any (fun r => r.patient_id == p.id) ||
      d_contra.any (fun r => r.patient_id == p.id))).dedup
  match processSidePatients modality_combine selIpsi (buildTables d_ipsi) qs with
  | .error e => .error e
  | .ok (qs1, invIpsi) =>
    match processSidePatients modality_combine selContra (buildTables d_contra) qs1 with
    | .error e => .error e
    | .ok (qs2, invContra) => .ok (qs2, ⟨invIpsi, invContra⟩)

/-- Message standing for a Python KeyError from an unguarded dictionary
lookup. -/
def keyErrMsg : String := "KeyError"

/-- Message standing for a Python IndexError from an out-of-range list or
array index. -/
def indexErrMsg : String := "IndexError"

/-- Message standing for the Python NameError hit when `tf2arr(tmp)` runs
before `tmp` was ever assigned. -/
def nameErrMsg : String := "NameError"

/-- Message standing for the Python AttributeError hit when
`tumor_set.first()` returns None and `.subsite` is read from it. -/
def attrErrMsg : String := "AttributeError"

/-- The counts structure assembled by `count_patients` (query.py lines
238-258): total, per-institution counts, the length-3 ternary counters,
the subsite-group and T-stage histograms, and one length-3 counter per
side and LNL (stored here as one list per side in `LNLs` order). -/
structure Counts where
  total : Nat
  institutions : List Nat
  sex : Arr3
  nicotine_abuse : Arr3
  hpv_status : Arr3
  neck_dissection : Arr3
  n_status : Arr3
  subsites : List Nat
  t_stages : List Nat
  central : Arr3
  extension : Arr3
  ipsi : List Arr3
  contra : List Arr3
deriving DecidableEq, Repr

/-- The initial counts dictionary of `count_patients` (query.py lines
238-258): the total is the queryset length, the institution counts are
computed up front, and every other counter starts as zeros of its
shape. -/
def initCounts (institutions : List Nat) (patients : List PatientRec) : Counts where
  total := patients.length
  institutions :=
    institutions.map (fun inst => (patients.filter (fun p => p.institution == inst)).length)
  sex := (0, 0, 0)
  nicotine_abuse := (0, 0, 0)
  hpv_status := (0, 0, 0)
  neck_dissection := (0, 0, 0)
  n_status := (0, 0, 0)
  subsites := SUBSITE_DICT.map (fun _ => 0)
  t_stages := T_stages.map (fun _ => 0)
  central := (0, 0, 0)
  extension := (0, 0, 0)
  ipsi := LNLs.map (fun _ => ((0, 0, 0) : Arr3))
  contra := LNLs.map (fun _ => ((0, 0, 0) : Arr3))

/-- Increment the entry of a count vector at a (valid) position. -/
def incrAt : List Nat → Nat → List Nat
  | [], _ => []
  | x :: rest, 0 => (x + 1) :: rest
  | x :: rest, j + 1 => x :: incrAt rest j

/-- Python `lst[i] += 1` with the Python indexing rule: a negative index
counts from the end, and an index out of the range raises IndexError.
This models `counts["t_stages"][tumor.t_stage-1] += 1` (query.py
line 270). -/
def pyIncrAt (l : List Nat) (i : Int) : Except String (List Nat) :=
  let j := if i < 0 then i + l.length else i
  if 0 ≤ j ∧ j < l.length then .ok (incrAt l j.toNat) else .error indexErrMsg

/-- Dictionary lookup `combined_involvement[side][patient_id]` as an
association-list lookup. -/
def lookupInv (m : List (Nat × List (Option Bool))) (pid : Nat) :
    Option (List (Option Bool)) :=
  (m.find? (fun e => e.1 == pid)).map (fun e => e.2)

/-- One iteration of the involvement-count loop body (query.py lines
285-290): `try: tmp = combined_involvement[side][patient.id][i] except
KeyError: pass` followed by the unconditional
`counts[side_lnl] += tf2arr(tmp)`.  Only the KeyError of a missing
patient id is caught (leaving `tmp` at its previous value, a NameError if
it never had one); an IndexError from `[i]` is not caught. -/
def lnlCount (sideMap : List (Nat × List (Option Bool))) (pid i : Nat)
    (tmp : Option (Option Bool)) (cnt : Arr3) : Except String (Arr3 × Option (Option Bool)) :=
  match lookupInv sideMap pid with
  | none =>
    match tmp with
    | none => .error nameErrMsg
    | some v => .ok (addArr3 cnt (tf2arr v), tmp)
  | some vec =>
    match vec.get? i with
    | none => .error indexErrMsg
    | some v => .ok (addArr3 cnt (tf2arr v), some v)

/-- The inner `for i, lnl in enumerate(LNLs)` loop of the involvement
counting for one side, threading the `tmp` variable through the
iterations. -/
def sideLoop (sideMap : List (Nat × List (Option Bool))) (pid : Nat) :
    List Arr3 → Nat → Option (Option Bool) →
    Except String (List Arr3 × Option (Option Bool))
  | [], _, tmp => .ok ([], tmp)
  | cnt :: rest, i, tmp =>
    match lnlCount sideMap pid i tmp cnt with
    | .error e => .error e
    | .ok (cnt1, tmp1) =>
      match sideLoop sideMap pid rest (i + 1) tmp1 with
      | .error e => .error e
      | .ok (rest1, tmp2) => .ok (cnt1 :: rest1, tmp2)

/-- One iteration of the patient loop of `count_patients` (query.py lines
261-290): the ternary patient counters, the tumor counters taken from
`tumor_set.first()` (AttributeError if the patient has no tumor), the
N-status split with its two unguarded `combined_involvement` lookups
(KeyError when the patient is missing on a side, contra looked up first),
and the per-side involvement counts. -/
def countPatientStep (cinv : CombinedInvolvement) (acc : Counts × Option (Option Bool))
    (patient : PatientRec) : Except String (Counts × Option (Option Bool)) :=
  let c0 := acc.1
  let c1 := { c0 with
    nicotine_abuse := addArr3 c0.nicotine_abuse (tf2arr patient.nicotine_abuse),
    hpv_status := addArr3 c0.hpv_status (tf2arr patient.hpv_status),
    neck_dissection := addArr3 c0.neck_dissection (tf2arr patient.neck_dissection) }
  match patient.tumors with
  | [] => .error attrErrMsg
  | tumor :: _ =>
    let c2 := { c1 with subsites := addVec c1.subsites (subsite2arr tumor.subsite) }
    match pyIncrAt c2.t_stages ((tumor.t_stage : Int) - 1) with
    | .error e => .error e
    | .ok ts =>
      let c3 := { c2 with t_stages := ts,
                          central := addArr3 c2.central (tf2arr tumor.central),
                          extension := addArr3 c2.extension (tf2arr tumor.extension) }
      match lookupInv cinv.contra patient.id with
      | none => .error keyErrMsg
      | some contraVec =>
        match lookupInv cinv.ipsi patient.id with
        | none => .error keyErrMsg
        | some ipsiVec =>
          let has_contra := contraVec.any truthy
          let has_ipsi := ipsiVec.any truthy
          let nInc : Arr3 := if !has_ipsi && !has_contra then (0, 0, 1) else (0, 1, 0)
          let c4 := { c3 with n_status := addArr3 c3.n_status nInc }
          match sideLoop cinv.ipsi patient.id c4.ipsi 0 acc.2 with
          | .error e => .error e
          | .ok (ipsiCnts, tmp1) =>
            match sideLoop cinv.contra patient.id c4.contra 0 tmp1 with
            | .error e => .error e
            | .ok (contraCnts, tmp2) =>
              .ok ({ c4 with ipsi := ipsiCnts, contra := contraCnts }, tmp2)

/-- The patient loop of `count_patients`, threading the counts and the
function-local `tmp` variable; any uncaught Python exception aborts the
whole loop. -/
def countLoop (cinv : CombinedInvolvement) :
    Counts × Option (Option Bool) → List PatientRec →
    Except String (Counts × Option (Option Bool))
  | acc, [] => .ok acc
  | acc, patient :: rest =>
    match countPatientStep cinv acc patient with
    | .error e => .error e
    | .ok acc1 => countLoop cinv acc1 rest

/-- Embedding of `count_patients` (query.py lines 224-294): initialize the
counts from the queryset, then run the patient loop. -/
def count_patients (institutions : List Nat) (patient_queryset : List PatientRec)
    (cinv : CombinedInvolvement) : Except String Counts :=
  match countLoop cinv (initCounts institutions patient_queryset, none) patient_queryset with
  | .error e => .error e
  | .ok acc => .ok acc.1

/-- A concrete patient used to instantiate the theorems below. -/
def patW : PatientRec :=
  ⟨1, 0, some true, none, some false, [⟨"C01", 1, none, some true⟩]⟩

/-- A concrete ipsilateral CT diagnosis row of that patient: LNL I
positive, all other levels unknown. -/
def rowW : DiagnoseRow := ⟨1, "CT", "ipsi", some true :: List.replicate 11 none⟩

/-- The target pattern that selects nothing in particular: every LNL a
do-not-care. -/
def selNone : List (Option Bool) := List.replicate 12 none

/-- A combined involvement structure holding both sides for patient 1. -/
def cinvW : CombinedInvolvement :=
  ⟨[(1, List.replicate 12 (some true))], [(1, List.replicate 12 none)]⟩

/-- A combined involvement structure holding only the ipsi side for
patient 1, as `diagnose_specific` produces when the patient has only
ipsilateral diagnoses. -/
def cinvIpsiOnly : CombinedInvolvement :=
  ⟨[(1, List.replicate 12 (some true))], []⟩

/-- A concrete patient with two tumors, both oropharyngeal and of low
T-stage. -/
def pat2 : PatientRec :=
  ⟨2, 0, none, none, none, [⟨"C01", 1, none, none⟩, ⟨"C09.0", 2, none, none⟩]⟩

/-- Python truthiness holds exactly at the value True. -/
theorem truthy_eq_true {x : Option Bool} : truthy x = true ↔ x = some true := by
  rcases x with _ | b
  · simp [truthy]
  · cases b <;> simp [truthy]

/-- The OR combination returns true exactly when some observation is
positive. -/
theorem orCombine_eq_true (col : List (Option Bool)) :
    orCombine col = true ↔ some true ∈ col := by
  simp only [orCombine, List.any_eq_true]
  constructor
  · rintro ⟨x, hx, ht⟩
    rwa [truthy_eq_true.mp ht] at hx
  · intro h
    exact ⟨some true, h, rfl⟩

/-- Negating an observation is truthy exactly at the value False. -/
theorem truthy_map_not {x : Option Bool} :
    truthy (Option.map (fun b => !b) x) = true ↔ x = some false := by
  rcases x with _ | b
  · simp [truthy]
  · cases b <;> simp [truthy]

/-- The AND combination returns false exactly when some observation is
negative. -/
theorem andCombine_eq_false (col : List (Option Bool)) :
    andCombine col = false ↔ some false ∈ col := by
  simp only [andCombine, Bool.not_eq_false', List.any_eq_true]
  constructor
  · rintro ⟨x, hx, ht⟩
    obtain ⟨y, hy, rfl⟩ := List.mem_map.mp hx
    rwa [truthy_map_not.mp ht] at hy
  · intro h
    exact ⟨Option.map (fun b => !b) (some false), List.mem_map_of_mem _ h, rfl⟩

/-- A column with some non-unknown observation does not satisfy the
all-unknown test of `columnConsensus`. -/
theorem all_none_false_of_exists {col : List (Option Bool)}
    (hcol : ∃ e ∈ col, e ≠ none) : col.all (fun e => e == none) = false := by
  rcases hcol with ⟨e, he, hne⟩
  cases h : col.all (fun e => e == none)
  · rfl
  · exact absurd (by simpa using List.all_eq_true.mp h e he) hne

/-- C1: with `modality_combine` equal to `OR`, `diagnose_specific` stores
for every patient and side the per-column consensus of the stacked
diagnosis table, and for every column holding at least one non-unknown
observation that consensus is positive iff at least one observation in
the column is positive, and negative otherwise. -/
theorem or_consensus_correct :
    (∀ diag_table : List (List (Option Bool)),
        processPatient "OR" diag_table =
          Except.ok (diag_table.transpose.map (columnConsensus orCombine))) ∧
    (∀ col : List (Option Bool), (∃ e ∈ col, e ≠ none) →
        ((columnConsensus orCombine col = some true ↔ some true ∈ col) ∧
         (columnConsensus orCombine col = some false ↔ some true ∉ col))) := by
  constructor
  · intro diag_table
    rfl
  · intro col hcol
    have hall := all_none_false_of_exists hcol
    rw [columnConsensus, hall]
    simp only [Bool.false_eq_true, if_false, Option.some.injEq]
    constructor
    · exact orCombine_eq_true col
    · rw [← orCombine_eq_true col]
      cases orCombine col <;> simp

/-- Witness for C1 at a concrete column with one positive and one unknown
observation. -/
theorem or_consensus_correct_witness :
    columnConsensus orCombine [some true, none] = some true ↔
      some true ∈ [some true, none] :=
  (or_consensus_correct.2 [some true, none] (by decide)).1

/-- C2: with `modality_combine` equal to `AND`, `diagnose_specific` stores
for every patient and side the per-column consensus of the stacked
diagnosis table, and for every column holding at least one non-unknown
observation that consensus is negative iff at least one observation in
the column is negative, and positive when all non-unknown observations
are positive (unknown observations are ignored by the vote, never treated
as false). -/
theorem and_consensus_correct :
    (∀ diag_table : List (List (Option Bool)),
        processPatient "AND" diag_table =
          Except.ok (diag_table.transpose.map (columnConsensus andCombine))) ∧
    (∀ col : List (Option Bool), (∃ e ∈ col, e ≠ none) →
        ((columnConsensus andCombine col = some false ↔ some false ∈ col) ∧
         (columnConsensus andCombine col = some true ↔ some false ∉ col))) := by
  constructor
  · intro diag_table
    rfl
  · intro col hcol
    have hall := all_none_false_of_exists hcol
    rw [columnConsensus, hall]
    simp only [Bool.false_eq_true, if_false, Option.some.injEq]
    constructor
    · rw [← andCombine_eq_false col]
    · rw [← andCombine_eq_false col]
      cases andCombine col <;> simp

/-- Witness for C2 at a concrete column with one unknown and one negative
observation. -/
theorem and_consensus_correct_witness :
    columnConsensus andCombine [none, some false] = some false ↔
      some false ∈ [none, some false] :=
  (and_consensus_correct.2 [none, some false] (by decide)).1

/-- C3: under both combination policies, a column whose observations are
all unknown gets the consensus unknown, never a definite value. -/
theorem all_unknown_consensus :
    ∀ col : List (Option Bool), (∀ e ∈ col, e = none) →
      columnConsensus orCombine col = none ∧ columnConsensus andCombine col = none := by
  intro col h
  have hall : col.all (fun e => e == none) = true :=
    List.all_eq_true.mpr (fun e he => by simpa using h e he)
  constructor <;> rw [columnConsensus, hall] <;> rfl

/-- Witness for C3 at the concrete all-unknown column of two entries. -/
theorem all_unknown_consensus_witness :
    columnConsensus orCombine [none, none] = none ∧
      columnConsensus andCombine [none, none] = none :=
  all_unknown_consensus [none, none] (by decide)

/-- C4: the consensus vector is compared against the target pattern only
at positions where the target is definite; the comparison fails whenever
a compared position differs, in particular when the consensus is unknown
and the target definite; and a patient failing the comparison is removed
from the queryset by the exclusion step. -/
theorem pattern_match_correct :
    (∀ selected combined : List (Option Bool),
        (patientMatches selected combined = true ↔
          ∀ (i : Nat) (hc : i < combined.length) (hs : i < selected.length) (b : Bool),
            selected[i] = some b → combined[i] = some b)) ∧
    (∀ selected combined : List (Option Bool),
        ∀ (i : Nat) (hc : i < combined.length) (hs : i < selected.length) (b : Bool),
          selected[i] = some b → combined[i] = none →
          patientMatches selected combined = false) ∧
    (∀ (qs : List PatientRec) (pid : Nat) (q : PatientRec),
        q ∈ excludePatient qs pid → q.id ≠ pid) := by
  have main : ∀ selected combined : List (Option Bool),
      patientMatches selected combined = true ↔
        ∀ (i : Nat) (hc : i < combined.length) (hs : i < selected.length) (b : Bool),
          selected[i] = some b → combined[i] = some b := by
    intro selected combined
    simp only [patientMatches, List.all_eq_true]
    constructor
    · intro h i hc hs b hsel
      have hzip : i < (combined.zip selected).length := by
        rw [List.length_zip]
        exact lt_min hc hs
      have hpair := h ((combined.zip selected)[i]) (List.getElem_mem hzip)
      rw [List.getElem_zip] at hpair
      simp only [hsel] at hpair
      simpa using hpair
    · intro h x hx
      obtain ⟨i, hzip, hxe⟩ := List.mem_iff_getElem.mp hx
      rw [List.getElem_zip] at hxe
      subst hxe
      have hc : i < combined.length := by
        rw [List.length_zip] at hzip
        exact lt_of_lt_of_le hzip (min_le_left _ _)
      have hs : i < selected.length := by
        rw [List.length_zip] at hzip
        exact lt_of_lt_of_le hzip (min_le_right _ _)
      cases hsel : selected[i] with
      | none => simp
      | some b => simp [h i hc hs b hsel]
  refine ⟨main, ?_, ?_⟩
  · intro selected combined i hc hs b hsel hcomb
    cases hm : patientMatches selected combined
    · rfl
    · have := (main selected combined).mp hm i hc hs b hsel
      rw [hcomb] at this
      exact Option.noConfusion this
  · intro qs pid q hq
    have := List.mem_filter.mp hq
    simpa using this.2

/-- Witness for C4: the unknown consensus at position 0 mismatches the
definite target False, so the patient comparison fails. -/
theorem pattern_match_correct_witness :
    patientMatches [some false, none] [none, some true] = false :=
  pattern_match_correct.2.1 [some false, none] [none, some true] 0 (by decide) (by decide)
    false (by decide) (by decide)

/-- With a policy other than OR and AND, the per-patient combine dispatch
raises the ValueError. -/
theorem processPatient_invalid {policy : String} (h1 : policy ≠ "OR") (h2 : policy ≠ "AND")
    (diag_table : List (List (Option Bool))) :
    processPatient policy diag_table = Except.error combineErrMsg := by
  have e1 : (policy == "OR") = false := beq_eq_false_iff_ne.mpr h1
  have e2 : (policy == "AND") = false := beq_eq_false_iff_ne.mpr h2
  rw [processPatient, e1, e2]
  rfl

/-- With a policy other than OR and AND, the per-side loop fails on its
first patient. -/
theorem processSidePatients_invalid {policy : String} (h1 : policy ≠ "OR")
    (h2 : policy ≠ "AND") (selected : List (Option Bool))
    (tables : List (Nat × List (List (Option Bool)))) (qs : List PatientRec)
    (hne : tables ≠ []) :
    processSidePatients policy selected tables qs = Except.error combineErrMsg := by
  cases tables with
  | nil => exact absurd rfl hne
  | cons hd tl =>
    obtain ⟨pid, tbl⟩ := hd
    rw [processSidePatients, processPatient_invalid h1 h2]

/-- Adding a row never leaves the diagnosis tables empty. -/
theorem addRow_ne_nil (tables : List (Nat × List (List (Option Bool)))) (pid : Nat)
    (row : List (Option Bool)) : addRow tables pid row ≠ [] := by
  rw [addRow]
  split
  · rename_i hany
    intro hmap
    rw [List.map_eq_nil_iff] at hmap
    subst hmap
    simp at hany
  · simp

/-- The diagnosis tables of a side are nonempty as soon as the side has a
diagnosis row. -/
theorem buildTables_ne_nil (rows : List DiagnoseRow) (hne : rows ≠ []) :
    buildTables rows ≠ [] := by
  have grow : ∀ (rs : List DiagnoseRow) (t : List (Nat × List (List (Option Bool)))),
      t ≠ [] → List.foldl (fun t r => addRow t r.patient_id r.lnls) t rs ≠ [] := by
    intro rs
    induction rs with
    | nil => intro t ht; exact ht
    | cons r rest ih =>
      intro t _
      exact ih (addRow t r.patient_id r.lnls) (addRow_ne_nil t r.patient_id r.lnls)
  cases rows with
  | nil => exact absurd rfl hne
  | cons r rest =>
    rw [buildTables, List.foldl_cons]
    exact grow rest (addRow [] r.patient_id r.lnls) (addRow_ne_nil [] r.patient_id r.lnls)

/-- C5 (amended): an unrecognized combination policy makes
`diagnose_specific` fail with the ValueError whenever at least one
qualifying diagnosis row exists; the dispatch sits inside the per-patient
loop, so the policy is only validated when some patient diagnosis is
processed. -/
theorem invalid_policy_raises :
    ∀ (qs : List PatientRec) (rows : List DiagnoseRow) (mods : List String)
      (policy : String) (selIpsi selContra : List (Option Bool)),
      policy ≠ "OR" → policy ≠ "AND" → qualifyingRows qs rows mods ≠ [] →
      diagnose_specific qs rows mods policy selIpsi selContra =
        Except.error combineErrMsg := by
  intro qs rows mods policy selIpsi selContra h1 h2 hne
  rw [diagnose_specific]
  by_cases hi : (qualifyingRows qs rows mods).filter (fun r => r.side == "ipsi") = []
  · have hc : (qualifyingRows qs rows mods).filter (fun r => !(r.side == "ipsi")) ≠ [] := by
      intro hcnil
      obtain ⟨r, hr⟩ := List.exists_mem_of_ne_nil _ hne
      rcases hside : (r.side == "ipsi") with _ | _
      · have := List.filter_eq_nil_iff.mp hcnil r hr
        rw [hside] at this
        simp at this
      · have := List.filter_eq_nil_iff.mp hi r hr
        rw [hside] at this
        simp at this
    have hipsi_nil : buildTables ([] : List DiagnoseRow) = [] := rfl
    have hside_nil : ∀ (pol : String) (sel : List (Option Bool)) (q : List PatientRec),
        processSidePatients pol sel [] q = Except.ok (q, []) := fun _ _ _ => rfl
    have hcontra : ∀ q : List PatientRec,
        processSidePatients policy selContra
          (buildTables ((qualifyingRows qs rows mods).filter (fun r => !(r.side == "ipsi")))) q =
          Except.error combineErrMsg :=
      fun q => processSidePatients_invalid h1 h2 selContra _ q (buildTables_ne_nil _ hc)
    simp only [hi, hipsi_nil, hside_nil, hcontra]
  · rw [processSidePatients_invalid h1 h2 selIpsi _ _ (buildTables_ne_nil _ hi)]

/-- Witness for C5 (amended) at a concrete query with one qualifying CT
row and the policy XOR. -/
theorem invalid_policy_raises_witness :
    diagnose_specific [patW] [rowW] ["CT"] "XOR" selNone selNone =
      Except.error combineErrMsg :=
  invalid_policy_raises [patW] [rowW] ["CT"] "XOR" selNone selNone
    (by decide) (by decide) (by decide)

/-- Counterexample for C5 as stated: with an unrecognized policy but no
qualifying diagnosis rows, `diagnose_specific` returns normally instead
of raising the ValueError. -/
theorem invalid_policy_no_rows_counterexample :
    diagnose_specific [patW] [] ["CT"] "XOR" selNone selNone =
      Except.ok ([], ⟨[], []⟩) := by
  rfl

/-- C6: evaluating `count_patients` at a cohort whose single patient has
an ipsi consensus entry but no contra entry.  The documented behavior
(try/except KeyError with pass — patients with missing sides skipped, and
skipped entries contributing nothing) never happens: the unguarded
N-status lookup of `combined_involvement["contra"][patient.id]` raises a
KeyError and the whole aggregation fails. -/
theorem count_patients_missing_side_keyerror :
    count_patients [] [patW] cinvIpsiOnly = Except.error keyErrMsg := by
  rfl

/-- C7: aggregating the empty cohort succeeds and returns total zero with
every per-category counter all-zero of its shape: one zero per
institution, length-3 zeros for the ternary and N-status counters, one
zero per subsite group and per T-stage, and a length-3 zero for every
side and LNL. -/
theorem count_patients_empty_cohort :
    ∀ (institutions : List Nat) (cinv : CombinedInvolvement),
      count_patients institutions [] cinv =
        Except.ok
          { total := 0,
            institutions := institutions.map (fun _ => 0),
            sex := (0, 0, 0),
            nicotine_abuse := (0, 0, 0),
            hpv_status := (0, 0, 0),
            neck_dissection := (0, 0, 0),
            n_status := (0, 0, 0),
            subsites := SUBSITE_DICT.map (fun _ => 0),
            t_stages := T_stages.map (fun _ => 0),
            central := (0, 0, 0),
            extension := (0, 0, 0),
            ipsi := LNLs.map (fun _ => ((0, 0, 0) : Arr3)),
            contra := LNLs.map (fun _ => ((0, 0, 0) : Arr3)) } := by
  intro institutions cinv
  rw [count_patients, countLoop]
  simp [initCounts]

/-- Bucket sums add componentwise. -/
theorem sum3_addArr3 (a b : Arr3) : sum3 (addArr3 a b) = sum3 a + sum3 b := by
  obtain ⟨x, y, z⟩ := a
  obtain ⟨u, v, w⟩ := b
  simp [sum3, addArr3]
  ring

/-- The one-hot encoding places every ternary value in exactly one
bucket. -/
theorem sum3_tf2arr (v : Option Bool) : sum3 (tf2arr v) = 1 := by
  rcases v with _ | b
  · rfl
  · cases b <;> rfl

/-- A successful patient step of the counting loop leaves sex and total
untouched and adds exactly one to the bucket sum of each populated
ternary attribute counter. -/
theorem countPatientStep_fields {cinv : CombinedInvolvement}
    {acc acc' : Counts × Option (Option Bool)} {patient : PatientRec}
    (h : countPatientStep cinv acc patient = Except.ok acc') :
    acc'.1.sex = acc.1.sex ∧ acc'.1.total = acc.1.total ∧
    sum3 acc'.1.nicotine_abuse = sum3 acc.1.nicotine_abuse + 1 ∧
    sum3 acc'.1.hpv_status = sum3 acc.1.hpv_status + 1 ∧
    sum3 acc'.1.neck_dissection = sum3 acc.1.neck_dissection + 1 ∧
    sum3 acc'.1.central = sum3 acc.1.central + 1 ∧
    sum3 acc'.1.extension = sum3 acc.1.extension + 1 := by
  simp only [countPatientStep] at h
  repeat' split at h
  all_goals try exact Except.noConfusion h
  all_goals
    injection h with h
    subst h
    refine ⟨rfl, rfl, ?_, ?_, ?_, ?_, ?_⟩ <;>
      simp [sum3_addArr3, sum3_tf2arr]

/-- Iterating the counting loop over a patient list adds the length of
the list to each populated ternary bucket sum, and leaves sex and total
untouched. -/
theorem countLoop_fields {cinv : CombinedInvolvement} :
    ∀ (ps : List PatientRec) (acc acc' : Counts × Option (Option Bool)),
      countLoop cinv acc ps = Except.ok acc' →
      acc'.1.sex = acc.1.sex ∧ acc'.1.total = acc.1.total ∧
      sum3 acc'.1.nicotine_abuse = sum3 acc.1.nicotine_abuse + ps.length ∧
      sum3 acc'.1.hpv_status = sum3 acc.1.hpv_status + ps.length ∧
      sum3 acc'.1.neck_dissection = sum3 acc.1.neck_dissection + ps.length ∧
      sum3 acc'.1.central = sum3 acc.1.central + ps.length ∧
      sum3 acc'.1.extension = sum3 acc.1.extension + ps.length := by
  intro ps
  induction ps with
  | nil =>
    intro acc acc' h
    rw [countLoop] at h
    injection h with h
    subst h
    simp
  | cons p rest ih =>
    intro acc acc' h
    rw [countLoop] at h
    cases hstep : countPatientStep cinv acc p with
    | error e => rw [hstep] at h; exact absurd h (by simp)
    | ok acc1 =>
      rw [hstep] at h
      obtain ⟨s1, t1, n1, h1, d1, c1, e1⟩ := countPatientStep_fields hstep
      obtain ⟨s2, t2, n2, h2, d2, c2, e2⟩ := ih acc1 acc' h
      refine ⟨s2.trans s1, t2.trans t1, ?_, ?_, ?_, ?_, ?_⟩ <;>
        simp only [List.length_cons] <;> omega

/-- C8 (amended): for every cohort that `count_patients` processes to
completion, the bucket sums of the populated ternary attribute counters
(nicotine_abuse, hpv_status, neck_dissection, central, extension) all
equal the total cohort size, while the sex counter is never incremented
and stays all-zero, so its bucket sum is 0 rather than the total. -/
theorem ternary_attribute_sums :
    ∀ (institutions : List Nat) (qs : List PatientRec) (cinv : CombinedInvolvement)
      (c : Counts),
      count_patients institutions qs cinv = Except.ok c →
      sum3 c.nicotine_abuse = c.total ∧ sum3 c.hpv_status = c.total ∧
      sum3 c.neck_dissection = c.total ∧ sum3 c.central = c.total ∧
      sum3 c.extension = c.total ∧ c.sex = (0, 0, 0) := by
  intro institutions qs cinv c h
  rw [count_patients] at h
  cases hl : countLoop cinv (initCounts institutions qs, none) qs with
  | error e => rw [hl] at h; exact absurd h (by simp)
  | ok acc =>
    rw [hl] at h
    injection h with h
    subst h
    obtain ⟨hs, ht, hn, hh, hd, hc, he⟩ := countLoop_fields qs _ _ hl
    have htotal : (initCounts institutions qs).total = qs.length := rfl
    have hzero : sum3 (0, 0, 0) = 0 := rfl
    refine ⟨?_, ?_, ?_, ?_, ?_, ?_⟩ <;>
      simp_all [initCounts, sum3]

/-- The counts structure computed for the concrete one-patient cohort
with full two-sided involvement data. -/
def c8counts : Counts :=
  (count_patients [] [patW] cinvW).toOption.getD (initCounts [] [])

/-- Witness for C8 (amended) at the concrete one-patient cohort. -/
theorem ternary_attribute_sums_witness :
    sum3 c8counts.nicotine_abuse = c8counts.total ∧
    sum3 c8counts.hpv_status = c8counts.total ∧
    sum3 c8counts.neck_dissection = c8counts.total ∧
    sum3 c8counts.central = c8counts.total ∧
    sum3 c8counts.extension = c8counts.total ∧
    c8counts.sex = (0, 0, 0) :=
  ternary_attribute_sums [] [patW] cinvW c8counts (by rfl)

/-- Counterexample for C8 as stated: on the concrete one-patient cohort
the sex counter stays all-zero, so its bucket sum is 0 while the total is
1; the claimed bucket-sum equality fails for the sex attribute. -/
theorem sex_counter_counterexample :
    count_patients [] [patW] cinvW = Except.ok c8counts ∧
    sum3 c8counts.sex = 0 ∧ c8counts.total = 1 ∧
    sum3 c8counts.sex ≠ c8counts.total := by
  refine ⟨rfl, rfl, rfl, ?_⟩
  decide

/-- Boolean conjunction absorbs a duplicated left factor. -/
theorem bool_and_self_left (a b : Bool) : (a && (a && b)) = (a && b) := by
  cases a <;> simp

/-- Membership in one tumor join-filter step: a patient row survives iff
it was present and some of its tumors satisfies the condition. -/
theorem mem_tumorFilter {cond : TumorRec → Bool} {qs : List PatientRec} {p : PatientRec} :
    p ∈ tumorFilter cond qs ↔ p ∈ qs ∧ p.tumors.any cond = true := by
  induction qs with
  | nil => simp [tumorFilter]
  | cons q rest ih =>
    rw [tumorFilter, List.mem_append]
    constructor
    · rintro (hmap | hrest)
      · obtain ⟨t, ht, heq⟩ := List.mem_map.mp hmap
        have hq : q = p := heq
        subst hq
        have hf := List.mem_filter.mp ht
        exact ⟨List.mem_cons_self _ _, List.any_eq_true.mpr ⟨t, hf.1, hf.2⟩⟩
      · obtain ⟨h1, h2⟩ := ih.mp hrest
        exact ⟨List.mem_cons_of_mem _ h1, h2⟩
    · rintro ⟨hmem, hany⟩
      rcases List.mem_cons.mp hmem with heq | hrest
      · subst heq
        obtain ⟨t, ht, hct⟩ := List.any_eq_true.mp hany
        exact Or.inl (List.mem_map.mpr ⟨t, List.mem_filter.mpr ⟨ht, hct⟩, rfl⟩)
      · exact Or.inr (ih.mpr ⟨hrest, hany⟩)

/-- C9 (amended): `patient_specific` is idempotent as stated, including
multiplicity; `tumor_specific` is idempotent only at the level of cohort
membership — the set of retained patients is unchanged by a second
application, but the multi-valued `tumor__` joins duplicate rows, so the
multiplicities are not preserved. -/
theorem cohort_filter_idempotence :
    (∀ (qs : List PatientRec) (nic hpv nd : Option Bool) (instIn : Option (List Nat)),
        patient_specific (patient_specific qs nic hpv nd instIn) nic hpv nd instIn =
          patient_specific qs nic hpv nd instIn) ∧
    (∀ (qs : List PatientRec) (subs : List String) (ts : List Nat)
        (cen ext : Option Bool) (p : PatientRec),
        p ∈ tumor_specific (tumor_specific qs subs ts cen ext) subs ts cen ext ↔
          p ∈ tumor_specific qs subs ts cen ext) := by
  constructor
  · intro qs nic hpv nd instIn
    rcases nic with _ | v1 <;> rcases hpv with _ | v2 <;> rcases nd with _ | v3 <;>
      rcases instIn with _ | li <;>
      simp only [patient_specific] <;>
      simp [List.filter_filter, Bool.and_assoc, Bool.and_comm, Bool.and_left_comm,
        Bool.and_self, bool_and_self_left]
  · intro qs subs ts cen ext p
    rcases cen with _ | vc <;> rcases ext with _ | ve <;>
      simp only [tumor_specific] <;>
      simp [mem_tumorFilter] <;> tauto

/-- The concrete subsite criterion matching both tumors of the
two-tumor patient. -/
def subsW : List String := ["C01", "C09.0"]

/-- Counterexample for C9 as stated: for the patient with two tumors both
matching the criteria, one application of `tumor_specific` yields 4
copies of the patient row and a second application 16, so filtering twice
does not equal filtering once with multiplicity. -/
theorem tumor_specific_multiplicity_counterexample :
    tumor_specific (tumor_specific [pat2] subsW T_stages none none)
        subsW T_stages none none ≠
      tumor_specific [pat2] subsW T_stages none none ∧
    (tumor_specific [pat2] subsW T_stages none none).length = 4 ∧
    (tumor_specific (tumor_specific [pat2] subsW T_stages none none)
        subsW T_stages none none).length = 16 := by
  refine ⟨?_, rfl, rfl⟩
  decide

/-- C10: `diagnose_specific` retains a patient who has qualifying
diagnoses only on the ipsi side and hands back a combined involvement
with no contra entry for that patient; `count_patients` on that very
output then fails with a KeyError at its unguarded
`combined_involvement["contra"][patient.id]` lookup instead of treating
the missing side as no involvement. -/
theorem count_patients_keyerror_one_sided :
    diagnose_specific [patW] [rowW] ["CT"] "OR" selNone selNone =
      Except.ok ([patW], ⟨[(1, some true :: List.replicate 11 none)], []⟩) ∧
    count_patients [] [patW] ⟨[(1, some true :: List.replicate 11 none)], []⟩ =
      Except.error keyErrMsg :=
  ⟨rfl, rfl⟩
